import Mathlib

/-!
# NexPing web client (`script.js`): the `RealTimeMessenger` controller

A shallow embedding of `src/script.js`.

* Part 1 models the part of the browser platform that the script calls: DOM
  nodes, `textContent`, the `innerHTML` getter (fragment serialisation) and the
  native `innerHTML` setter (fragment parsing).
* Part 2 embeds the script itself: the global `innerHTML` setter override
  installed at the bottom of the file and every method of
  `RealTimeMessenger`.
* Part 3 states and proves the properties.

JavaScript strings are modelled as lists of characters so that every function
is structurally recursive and can be evaluated.
-/

namespace NexPing

/-- JavaScript string, as a list of characters. -/
abbrev Str := List Char

/-! ## Part 1: the DOM platform -/

/-- DOM node: a text node, or an element with its attributes and children. -/
inductive Node where
  | text (data : Str)
  | element (tag : Str) (attrs : List (Str × Str)) (children : List Node)

/-- The double quote character. -/
def dquote : Char := Char.ofNat 34

/-- The single quote character. -/
def squote : Char := Char.ofNat 39

/-- The no-break space U+00A0. -/
def nbsp : Char := Char.ofNat 160

/-- ASCII whitespace as the HTML tokenizer sees it: tab, LF, FF, CR, space. -/
def isHtmlSpace (c : Char) : Bool :=
  c = ' ' || c = '\t' || c = '\n' || c = Char.ofNat 12 || c = '\r'

/-- HTML void elements: they never have children and take no end tag. -/
def voidTags : List Str :=
  ["area".toList, "base".toList, "br".toList, "col".toList, "embed".toList,
   "hr".toList, "img".toList, "input".toList, "link".toList, "meta".toList,
   "source".toList, "track".toList, "wbr".toList]

/-! ### Serialisation: the `innerHTML` getter -/

/-- Escaping of one character of a text node when it is serialised. -/
def escapeChar (c : Char) : Str :=
  if c = '&' then "&amp;".toList
  else if c = nbsp then "&nbsp;".toList
  else if c = '<' then "&lt;".toList
  else if c = '>' then "&gt;".toList
  else [c]

/-- Escaping of the data of a text node. -/
def escapeText (s : Str) : Str := s.flatMap escapeChar

/-- Escaping of one character of an attribute value when it is serialised. -/
def escapeAttrChar (c : Char) : Str :=
  if c = '&' then "&amp;".toList
  else if c = nbsp then "&nbsp;".toList
  else if c = dquote then "&quot;".toList
  else [c]

/-- Serialisation of the attribute list of a start tag. -/
def serializeAttrs : List (Str × Str) → Str
  | [] => []
  | (k, v) :: rest =>
    [' '] ++ k ++ ['=', dquote] ++ v.flatMap escapeAttrChar ++ [dquote] ++ serializeAttrs rest

/-- Elements whose text children are serialised as they are, without escaping. -/
def literalTextTags : List Str :=
  ["style".toList, "script".toList, "xmp".toList, "iframe".toList, "noembed".toList,
   "noframes".toList, "noscript".toList, "plaintext".toList]

mutual
/-- HTML serialisation of one node; `literal` tells that the parent is one of
`literalTextTags`. -/
def Node.serialize (literal : Bool) : Node → Str
  | .text d => if literal then d else escapeText d
  | .element tag attrs children =>
    if tag ∈ voidTags then ['<'] ++ tag ++ serializeAttrs attrs ++ ['>']
    else ['<'] ++ tag ++ serializeAttrs attrs ++ ['>']
      ++ serializeList (decide (tag ∈ literalTextTags)) children
      ++ ['<', '/'] ++ tag ++ ['>']
/-- HTML serialisation of a list of sibling nodes. -/
def serializeList (literal : Bool) : List Node → Str
  | [] => []
  | n :: ns => n.serialize literal ++ serializeList literal ns
end

/-- The `innerHTML` getter of an element with the given children that is not
one of `literalTextTags`; the script reads it from `div` elements only. -/
def getInnerHTML (children : List Node) : Str := serializeList false children

/-! ### `textContent` -/

mutual
/-- The `textContent` getter of one node: its descendant text, concatenated. -/
def Node.textContent : Node → Str
  | .text d => d
  | .element _ _ children => textContentList children
/-- The `textContent` getter of an element with the given children. -/
def textContentList : List Node → Str
  | [] => []
  | n :: ns => n.textContent ++ textContentList ns
end

/-- The `textContent` setter: the new children of the element. The empty
string leaves the element without children, any other string gives exactly one
text node. -/
def setTextContent (s : Str) : List Node :=
  if s = [] then [] else [Node.text s]

/-! ### Parsing: the native `innerHTML` setter

The HTML fragment parser, reduced to what is modelled here:

* the preprocessing of the input (CR LF and CR become LF);
* the tokenizer: text, the named character references `amp`, `lt`, `gt`,
  `nbsp`, `quot`, `apos`, start tags with attributes, end tags, the text-only
  states entered for `title`, `textarea`, `style`, `script` and their like,
  U+0000 replaced by U+FFFD where the tokenizer does so;
* the tree builder in the "in body" insertion mode: U+0000 in text dropped,
  void elements, start tags that are ignored in a body, the end tags implied by
  `p`, `li`, `dd`, `dt`, headings and block elements, the end tag rules with
  their scopes, the line feed dropped after `pre`, `listing`, `textarea`;
* the context element: whether its content is read as markup, as text with
  character references, or as raw text.

Not modelled: numeric character references and references without `;`,
character references inside attribute values, comment nodes, the escapes of
script data, formatting elements that are reopened, the table, select,
frameset and template insertion modes, foreign content. -/

/-- The character U+0000. -/
def nul : Char := Char.ofNat 0

/-- The replacement character U+FFFD. -/
def replacementChar : Char := Char.ofNat 65533

/-- How the fragment parser reads markup assigned to an element. -/
inductive Context where
  /-- Markup: the tokenizer starts in the data state (`div`, `span`, `p`, ...). -/
  | flow
  /-- Text with character references, no tags (`title`, `textarea`). -/
  | rcdata
  /-- Raw text, neither tags nor character references (`style`, `script`, ...). -/
  | rawtext
deriving DecidableEq

/-- Elements whose content is text with character references. -/
def rcdataTags : List Str := ["title".toList, "textarea".toList]

/-- Elements whose content is raw text. -/
def rawtextTags : List Str :=
  ["style".toList, "xmp".toList, "iframe".toList, "noembed".toList, "noframes".toList,
   "noscript".toList, "script".toList]

/-- Elements that, as the element assigned to, put the tree builder in an
insertion mode other than "in body". -/
def otherModeTags : List Str :=
  ["html".toList, "frameset".toList, "colgroup".toList, "caption".toList, "table".toList,
   "tbody".toList, "thead".toList, "tfoot".toList, "tr".toList, "select".toList,
   "template".toList]

/-- The parsing context that an element with the given tag name is; `none` for
the elements whose insertion mode is not modelled. -/
def contextOfTag (tag : Str) : Option Context :=
  if tag ∈ rcdataTags then some Context.rcdata
  else if tag ∈ rawtextTags || tag = "plaintext".toList then some Context.rawtext
  else if tag ∈ otherModeTags then none
  else some Context.flow

/-- Newline normalisation of the parser input: CR LF and a lone CR become LF.
`afterCR` tells that the previous character was a CR. -/
def normalizeNewlinesFrom (afterCR : Bool) : Str → Str
  | [] => []
  | c :: cs =>
    if c = '\r' then '\n' :: normalizeNewlinesFrom true cs
    else if c = '\n' && afterCR then normalizeNewlinesFrom false cs
    else c :: normalizeNewlinesFrom false cs

/-- Preprocessing of the parser input. -/
def preprocess (s : Str) : Str := normalizeNewlinesFrom false s

/-- Tokens produced by the tokenizer. -/
inductive Token where
  | char (c : Char)
  | startTag (name : Str) (attrs : List (Str × Str))
  | endTag (name : Str)

/-- Tag under construction in the tokenizer. -/
structure TagAcc where
  isEnd : Bool
  name : Str
  attrs : List (Str × Str)

/-- Tokenizer states. The `text` states are the RCDATA (`decode` true) and
RAWTEXT (`decode` false) states; `endName` is the name of the end tag that
leaves them, if any. -/
inductive TState where
  | data
  | charRef (name : Str)
  | tagOpen
  | endTagOpen
  | bogusComment
  | tagName (t : TagAcc)
  | beforeAttrName (t : TagAcc)
  | attrName (t : TagAcc) (an : Str)
  | afterAttrName (t : TagAcc) (an : Str)
  | beforeAttrValue (t : TagAcc) (an : Str)
  | attrValueQuoted (q : Char) (t : TagAcc) (an av : Str)
  | attrValueUnquoted (t : TagAcc) (an av : Str)
  | text (decode : Bool) (endName : Option Str)
  | textCharRef (endName : Option Str) (name : Str)
  | textLt (decode : Bool) (endName : Option Str)
  | textEndOpen (decode : Bool) (endName : Option Str)
  | textEndName (decode : Bool) (endName : Option Str) (acc : Str)

/-- Add an attribute to a tag; a repeated attribute name is dropped. -/
def TagAcc.push (t : TagAcc) (an av : Str) : TagAcc :=
  if t.attrs.any (fun kv => kv.1 = an) then t
  else { t with attrs := t.attrs ++ [(an, av)] }

/-- The token for a finished tag. -/
def TagAcc.emit (t : TagAcc) : List Token :=
  if t.isEnd then [Token.endTag t.name] else [Token.startTag t.name t.attrs]

/-- The tokenizer state after a finished tag: a start tag of a text-only
element switches to the matching text state. -/
def TagAcc.next (t : TagAcc) : TState :=
  if t.isEnd then TState.data
  else if t.name ∈ rcdataTags then TState.text true (some t.name)
  else if t.name ∈ rawtextTags then TState.text false (some t.name)
  else if t.name = "plaintext".toList then TState.text false none
  else TState.data

/-- A character as it is stored in a tag name, attribute name or attribute
value: U+0000 becomes U+FFFD. -/
def tagChar (c : Char) : Char := if c = nul then replacementChar else c

/-- Decoding of a named character reference. -/
def decodeRef (name : Str) : Option Char :=
  if name = "amp".toList then some '&'
  else if name = "lt".toList then some '<'
  else if name = "gt".toList then some '>'
  else if name = "nbsp".toList then some nbsp
  else if name = "quot".toList then some dquote
  else if name = "apos".toList then some squote
  else none

/-- One step of the tokenizer in the data state. -/
def dataStep (c : Char) : TState × List Token :=
  if c = '&' then (TState.charRef [], [])
  else if c = '<' then (TState.tagOpen, [])
  else (TState.data, [Token.char c])

/-- One step of the tokenizer in a text state. -/
def textStep (decode : Bool) (endName : Option Str) (c : Char) : TState × List Token :=
  if c = '&' && decode then (TState.textCharRef endName [], [])
  else if c = '<' then (TState.textLt decode endName, [])
  else if c = nul then (TState.text decode endName, [Token.char replacementChar])
  else (TState.text decode endName, [Token.char c])

/-- One step of the tokenizer: the next state and the tokens emitted. -/
def tokStep : TState → Char → TState × List Token
  | .data, c => dataStep c
  | .charRef name, c =>
    if c.isAlphanum then (.charRef (name ++ [c]), [])
    else if c = ';' then
      match decodeRef name with
      | some d => (.data, [Token.char d])
      | none => (.data, (['&'] ++ name ++ [';']).map Token.char)
    else
      let r := dataStep c
      (r.1, (['&'] ++ name).map Token.char ++ r.2)
  | .tagOpen, c =>
    if c.isAlpha then (.tagName ⟨false, [c.toLower], []⟩, [])
    else if c = '/' then (.endTagOpen, [])
    else if c = '!' || c = '?' then (.bogusComment, [])
    else
      let r := dataStep c
      (r.1, Token.char '<' :: r.2)
  | .endTagOpen, c =>
    if c.isAlpha then (.tagName ⟨true, [c.toLower], []⟩, [])
    else if c = '>' then (.data, [])
    else (.bogusComment, [])
  | .bogusComment, c =>
    if c = '>' then (.data, []) else (.bogusComment, [])
  | .tagName t, c =>
    if isHtmlSpace c || c = '/' then (.beforeAttrName t, [])
    else if c = '>' then (t.next, t.emit)
    else (.tagName { t with name := t.name ++ [(tagChar c).toLower] }, [])
  | .beforeAttrName t, c =>
    if isHtmlSpace c || c = '/' then (.beforeAttrName t, [])
    else if c = '>' then (t.next, t.emit)
    else (.attrName t [(tagChar c).toLower], [])
  | .attrName t an, c =>
    if isHtmlSpace c then (.afterAttrName t an, [])
    else if c = '/' then (.beforeAttrName (t.push an []), [])
    else if c = '=' then (.beforeAttrValue t an, [])
    else if c = '>' then (t.next, (t.push an []).emit)
    else (.attrName t (an ++ [(tagChar c).toLower]), [])
  | .afterAttrName t an, c =>
    if isHtmlSpace c then (.afterAttrName t an, [])
    else if c = '/' then (.beforeAttrName (t.push an []), [])
    else if c = '=' then (.beforeAttrValue t an, [])
    else if c = '>' then (t.next, (t.push an []).emit)
    else (.attrName (t.push an []) [(tagChar c).toLower], [])
  | .beforeAttrValue t an, c =>
    if isHtmlSpace c then (.beforeAttrValue t an, [])
    else if c = dquote || c = squote then (.attrValueQuoted c t an [], [])
    else if c = '>' then (t.next, (t.push an []).emit)
    else (.attrValueUnquoted t an [tagChar c], [])
  | .attrValueQuoted q t an av, c =>
    if c = q then (.beforeAttrName (t.push an av), [])
    else (.attrValueQuoted q t an (av ++ [tagChar c]), [])
  | .attrValueUnquoted t an av, c =>
    if isHtmlSpace c then (.beforeAttrName (t.push an av), [])
    else if c = '>' then (t.next, (t.push an av).emit)
    else (.attrValueUnquoted t an (av ++ [tagChar c]), [])
  | .text decode endName, c => textStep decode endName c
  | .textCharRef endName name, c =>
    if c.isAlphanum then (.textCharRef endName (name ++ [c]), [])
    else if c = ';' then
      match decodeRef name with
      | some d => (.text true endName, [Token.char d])
      | none => (.text true endName, (['&'] ++ name ++ [';']).map Token.char)
    else
      let r := textStep true endName c
      (r.1, (['&'] ++ name).map Token.char ++ r.2)
  | .textLt decode endName, c =>
    if c = '/' then (.textEndOpen decode endName, [])
    else
      let r := textStep decode endName c
      (r.1, Token.char '<' :: r.2)
  | .textEndOpen decode endName, c =>
    if c.isAlpha then (.textEndName decode endName [c], [])
    else
      let r := textStep decode endName c
      (r.1, Token.char '<' :: Token.char '/' :: r.2)
  | .textEndName decode endName acc, c =>
    if c.isAlpha then (.textEndName decode endName (acc ++ [c]), [])
    else if endName = some (acc.map Char.toLower) && (isHtmlSpace c || c = '/') then
      (.beforeAttrName ⟨true, acc.map Char.toLower, []⟩, [])
    else if endName = some (acc.map Char.toLower) && c = '>' then
      (.data, [Token.endTag (acc.map Char.toLower)])
    else
      let r := textStep decode endName c
      (r.1, (['<', '/'] ++ acc).map Token.char ++ r.2)

/-- Tokens emitted when the input ends in the given state. An unfinished tag
is dropped. -/
def tokFlush : TState → List Token
  | .charRef name => (['&'] ++ name).map Token.char
  | .tagOpen => [Token.char '<']
  | .endTagOpen => [Token.char '<', Token.char '/']
  | .textCharRef _ name => (['&'] ++ name).map Token.char
  | .textLt _ _ => [Token.char '<']
  | .textEndOpen _ _ => [Token.char '<', Token.char '/']
  | .textEndName _ _ acc => (['<', '/'] ++ acc).map Token.char
  | _ => []

/-- Run the tokenizer from a state over the input. -/
def tokRun : TState → Str → List Token
  | st, [] => tokFlush st
  | st, c :: cs => (tokStep st c).2 ++ tokRun (tokStep st c).1 cs

/-- The state in which the tokenizer starts for a context element. No end tag
leaves the text states then. -/
def Context.initial : Context → TState
  | .flow => TState.data
  | .rcdata => TState.text true none
  | .rawtext => TState.text false none

/-- An element that is still open in the tree builder, with the siblings that
precede it (latest first). -/
structure Frame where
  tag : Str
  attrs : List (Str × Str)
  before : List Node

/-- Append a character to the children built so far (latest first): it
extends a text node that is the latest child, else it starts a new one. -/
def addChar (cur : List Node) (c : Char) : List Node :=
  match cur with
  | Node.text d :: rest => Node.text (d ++ [c]) :: rest
  | _ => Node.text [c] :: cur

/-- Close open elements down to and including the nearest one whose name is
among `names`. -/
def closeUntil (names : List Str) : List Frame → List Node → List Frame × List Node
  | [], cur => ([], cur)
  | f :: fs, cur =>
    let cur1 := Node.element f.tag f.attrs cur.reverse :: f.before
    if f.tag ∈ names then (fs, cur1) else closeUntil names fs cur1

/-- Close every element still open at the end of the input. -/
def closeAll : List Frame → List Node → List Node
  | [], cur => cur.reverse
  | f :: fs, cur => closeAll fs (Node.element f.tag f.attrs cur.reverse :: f.before)

/-- Elements that bound every scope. -/
def scopeMarkers : List Str :=
  ["applet".toList, "caption".toList, "html".toList, "table".toList, "td".toList,
   "th".toList, "marquee".toList, "object".toList, "template".toList]

/-- Elements that bound the button scope. -/
def buttonScopeMarkers : List Str := "button".toList :: scopeMarkers

/-- Elements that bound the list item scope. -/
def listItemScopeMarkers : List Str := "ol".toList :: "ul".toList :: scopeMarkers

/-- The heading elements. -/
def headingTags : List Str :=
  ["h1".toList, "h2".toList, "h3".toList, "h4".toList, "h5".toList, "h6".toList]

/-- Whether an element named in `names` is open within the scope bounded by
`markers`. -/
def hasInScope (markers names : List Str) : List Frame → Bool
  | [] => false
  | f :: fs =>
    if f.tag ∈ names then true
    else if f.tag ∈ markers then false
    else hasInScope markers names fs

/-- The elements of the special category. -/
def specialTags : List Str :=
  ["address".toList, "applet".toList, "area".toList, "article".toList, "aside".toList,
   "base".toList, "basefont".toList, "bgsound".toList, "blockquote".toList, "body".toList,
   "br".toList, "button".toList, "caption".toList, "center".toList, "col".toList,
   "colgroup".toList, "dd".toList, "details".toList, "dir".toList, "div".toList,
   "dl".toList, "dt".toList, "embed".toList, "fieldset".toList, "figcaption".toList,
   "figure".toList, "footer".toList, "form".toList, "frame".toList, "frameset".toList,
   "h1".toList, "h2".toList, "h3".toList, "h4".toList, "h5".toList, "h6".toList,
   "head".toList, "header".toList, "hgroup".toList, "hr".toList, "html".toList,
   "iframe".toList, "img".toList, "input".toList, "keygen".toList, "li".toList,
   "link".toList, "listing".toList, "main".toList, "marquee".toList, "menu".toList,
   "meta".toList, "nav".toList, "noembed".toList, "noframes".toList, "noscript".toList,
   "object".toList, "ol".toList, "p".toList, "param".toList, "plaintext".toList,
   "pre".toList, "script".toList, "search".toList, "section".toList, "select".toList,
   "source".toList, "style".toList, "summary".toList, "table".toList, "tbody".toList,
   "td".toList, "template".toList, "textarea".toList, "tfoot".toList, "th".toList,
   "thead".toList, "title".toList, "tr".toList, "track".toList, "ul".toList,
   "wbr".toList, "xmp".toList]

/-- Start tags that close an open `p` element. -/
def pClosingTags : List Str :=
  ["address".toList, "article".toList, "aside".toList, "blockquote".toList,
   "center".toList, "details".toList, "dialog".toList, "dir".toList, "div".toList,
   "dl".toList, "fieldset".toList, "figcaption".toList, "figure".toList, "footer".toList,
   "header".toList, "hgroup".toList, "main".toList, "menu".toList, "nav".toList,
   "ol".toList, "p".toList, "search".toList, "section".toList, "summary".toList,
   "ul".toList, "h1".toList, "h2".toList, "h3".toList, "h4".toList, "h5".toList,
   "h6".toList, "pre".toList, "listing".toList, "form".toList, "li".toList, "dd".toList,
   "dt".toList, "plaintext".toList, "table".toList, "hr".toList, "xmp".toList]

/-- End tags that close their element only when it is in scope. -/
def scopedEndTags : List Str :=
  ["address".toList, "article".toList, "aside".toList, "blockquote".toList,
   "button".toList, "center".toList, "details".toList, "dialog".toList, "dir".toList,
   "div".toList, "dl".toList, "fieldset".toList, "figcaption".toList, "figure".toList,
   "footer".toList, "form".toList, "header".toList, "hgroup".toList, "listing".toList,
   "main".toList, "menu".toList, "nav".toList, "ol".toList, "pre".toList,
   "search".toList, "section".toList, "summary".toList, "ul".toList, "dd".toList,
   "dt".toList, "applet".toList, "marquee".toList, "object".toList]

/-- Start tags that the "in body" insertion mode ignores. -/
def ignoredStartTags : List Str :=
  ["caption".toList, "col".toList, "colgroup".toList, "frame".toList, "frameset".toList,
   "head".toList, "html".toList, "body".toList, "tbody".toList, "td".toList,
   "tfoot".toList, "th".toList, "thead".toList, "tr".toList]

/-- Start tags after which a line feed that comes next is dropped. -/
def skipLineFeedTags : List Str := ["pre".toList, "listing".toList, "textarea".toList]

/-- The open list item that a new `li` (or `dd`, `dt`) start tag closes: the
nearest open element among `targets`, looked for up to the first special
element other than `address`, `div` and `p`. -/
def itemToClose (targets : List Str) : List Frame → Option Str
  | [] => none
  | f :: fs =>
    if f.tag ∈ targets then some f.tag
    else if f.tag ∈ specialTags
        && !(f.tag ∈ ["address".toList, "div".toList, "p".toList]) then none
    else itemToClose targets fs

/-- Close the open item that `itemToClose` finds, if any. -/
def closeItem (targets : List Str) (stack : List Frame) (cur : List Node) :
    List Frame × List Node :=
  match itemToClose targets stack with
  | some t => closeUntil [t] stack cur
  | none => (stack, cur)

/-- Close a `p` element that is open in button scope, if any. -/
def closeP (stack : List Frame) (cur : List Node) : List Frame × List Node :=
  if hasInScope buttonScopeMarkers ["p".toList] stack then closeUntil ["p".toList] stack cur
  else (stack, cur)

/-- The end tags that a start tag implies, applied before the element is
inserted. -/
def prepareStart (name : Str) (stack : List Frame) (cur : List Node) :
    List Frame × List Node :=
  let s1 :=
    if name = "li".toList then closeItem ["li".toList] stack cur
    else if name = "dd".toList || name = "dt".toList then
      closeItem ["dd".toList, "dt".toList] stack cur
    else (stack, cur)
  let s2 := if name ∈ pClosingTags then closeP s1.1 s1.2 else s1
  if name ∈ headingTags then
    match s2.1 with
    | f :: _ => if f.tag ∈ headingTags then closeUntil headingTags s2.1 s2.2 else s2
    | [] => s2
  else s2

/-- Whether the "any other end tag" rule finds an open element named `name`
before it meets a special element. -/
def reachable (name : Str) : List Frame → Bool
  | [] => false
  | f :: fs =>
    if f.tag = name then true
    else if f.tag ∈ specialTags then false
    else reachable name fs

/-- The effect of an end tag in the "in body" insertion mode. -/
def applyEnd (name : Str) (stack : List Frame) (cur : List Node) : List Frame × List Node :=
  if name = "br".toList then (stack, Node.element "br".toList [] [] :: cur)
  else if name = "p".toList then
    if hasInScope buttonScopeMarkers ["p".toList] stack then closeUntil ["p".toList] stack cur
    else (stack, Node.element "p".toList [] [] :: cur)
  else if name = "li".toList then
    if hasInScope listItemScopeMarkers ["li".toList] stack then
      closeUntil ["li".toList] stack cur
    else (stack, cur)
  else if name ∈ headingTags then
    if hasInScope scopeMarkers headingTags stack then closeUntil headingTags stack cur
    else (stack, cur)
  else if name ∈ scopedEndTags then
    if hasInScope scopeMarkers [name] stack then closeUntil [name] stack cur
    else (stack, cur)
  else if reachable name stack then closeUntil [name] stack cur
  else (stack, cur)

/-- The tree builder: `stack` holds the open elements (innermost first), `cur`
the children of the innermost open element built so far (latest first);
`skipLineFeed` tells that a line feed coming next is to be dropped. -/
def build : List Token → Bool → List Frame → List Node → List Node
  | [], _, stack, cur => closeAll stack cur
  | Token.char c :: ts, skipLineFeed, stack, cur =>
    if c = nul || (skipLineFeed && c = '\n') then build ts false stack cur
    else build ts false stack (addChar cur c)
  | Token.startTag name attrs :: ts, _, stack, cur =>
    if name ∈ ignoredStartTags then build ts false stack cur
    else if name ∈ voidTags then
      build ts false (prepareStart name stack cur).1
        (Node.element name attrs [] :: (prepareStart name stack cur).2)
    else
      build ts (decide (name ∈ skipLineFeedTags))
        (⟨name, attrs, (prepareStart name stack cur).2⟩ :: (prepareStart name stack cur).1) []
  | Token.endTag name :: ts, _, stack, cur =>
    build ts false (applyEnd name stack cur).1 (applyEnd name stack cur).2

/-- The HTML fragment parser: the nodes that the markup stands for when it is
assigned to an element of the given context. -/
def parseFragment (ctx : Context) (s : Str) : List Node :=
  build (tokRun ctx.initial (preprocess s)) false [] []

/-- The native `innerHTML` setter (`originalInnerHTML` in the script), called
on an element of the given context: the new children of the element are the
parsed markup. -/
def originalInnerHTML (ctx : Context) (markup : Str) : List Node := parseFragment ctx markup

/-- The text that markup without tags and character references stands for in
the flow context: newlines normalised, U+0000 dropped. -/
def parsedText (s : Str) : Str := (preprocess s).filter (fun c => c ≠ nul)

/-! ### Selectors and attributes -/

/-- Split a string on ASCII whitespace, `acc` being the current word. -/
def splitWords : Str → Str → List Str
  | [], acc => if acc = [] then [] else [acc]
  | c :: cs, acc =>
    if isHtmlSpace c then (if acc = [] then splitWords cs [] else acc :: splitWords cs [])
    else splitWords cs (acc ++ [c])

/-- Value of an attribute, if present. -/
def getAttr (k : Str) : List (Str × Str) → Option Str
  | [] => none
  | (k1, v) :: rest => if k1 = k then some v else getAttr k rest

/-- Whether a node is an element whose class list contains `cls`. -/
def Node.hasClass (cls : Str) : Node → Bool
  | .text _ => false
  | .element _ attrs _ =>
    match getAttr "class".toList attrs with
    | some v => (splitWords v []).contains cls
    | none => false

/-- Whether a node is an element. -/
def Node.isElement : Node → Bool
  | .text _ => false
  | .element _ _ _ => true

mutual
/-- Descendant elements of a node (the node itself excluded) with class `cls`,
in document order. -/
def Node.descendantsWithClass (cls : Str) : Node → List Node
  | .text _ => []
  | .element _ _ children => queryAllClass cls children
/-- The selector query `.cls` below an element with the given children
(`querySelectorAll`): matching descendants in document order. -/
def queryAllClass (cls : Str) : List Node → List Node
  | [] => []
  | n :: ns =>
    (if n.hasClass cls then [n] else []) ++ n.descendantsWithClass cls ++ queryAllClass cls ns
end

mutual
/-- Remove the first descendant of a node that has class `cls`; `none` when
there is none. -/
def Node.removeFirstClass (cls : Str) : Node → Option Node
  | .text _ => none
  | .element tag attrs children =>
    match removeFirstClassList cls children with
    | some children1 => some (.element tag attrs children1)
    | none => none
/-- Remove the first node in document order with class `cls` from below an
element with the given children (`querySelector` followed by `remove`);
`none` when no node matches. -/
def removeFirstClassList (cls : Str) : List Node → Option (List Node)
  | [] => none
  | n :: ns =>
    if n.hasClass cls then some ns
    else
      match n.removeFirstClass cls with
      | some n1 => some (n1 :: ns)
      | none =>
        match removeFirstClassList cls ns with
        | some ns1 => some (n :: ns1)
        | none => none
end

mutual
/-- Number of elements in a node, itself included. -/
def Node.countElements : Node → Nat
  | .text _ => 0
  | .element _ _ children => 1 + countElementsList children
/-- Number of elements below an element with the given children. -/
def countElementsList : List Node → Nat
  | [] => 0
  | n :: ns => n.countElements + countElementsList ns
end

/-! ## Part 2: `script.js` -/

/-! ### The global `innerHTML` override and `escapeHtml` -/

/-- The `innerHTML` setter that the script installs on `Element.prototype`
(the block marked "XSS Protection"), called on an element of context `ctx`:
the assigned value becomes the text of a fresh `div`, and the markup of that
`div` is handed to the native setter, called on the element assigned to. The
result is the new children of that element. Only `set` is redefined, the
getter stays the native one. -/
def setInnerHTML (ctx : Context) (value : Str) : List Node :=
  let div := setTextContent value
  originalInnerHTML ctx (getInnerHTML div)

/-- Modelled from the spec: the page markup with `#contactsList`, `#status`
and `#chatMessages` is not among the sources. Section 6 of the spec calls them
a contacts-list container, a connection-status indicator and a chat-messages
container; they are taken to be flow elements such as `div`. -/
def containerContext : Context := Context.flow

/-- Method `escapeHtml(text)`: the markup of a fresh `div` whose text is `text`. -/
def escapeHtml (text : Str) : Str :=
  let div := setTextContent text
  getInnerHTML div

/-! ### Data -/

/-- Contact, as an element of the `contacts` array of the `/contacts` response. -/
structure Contact where
  name : Str
  node_id : Str
  status : Str
  last_seen : Str
deriving DecidableEq

/-- Decoded JSON body of `GET /contacts`. A field is `none` when the property
is absent or `null` in the body. -/
structure ContactsData where
  contacts : Option (List Contact)
  server_name : Option Str
  node_id : Option Str

/-- What `fetch('/contacts')` followed by `response.json()` comes back with. -/
inductive ContactsOutcome where
  /-- `fetch` rejects. -/
  | networkError
  /-- `response.json()` rejects: the body is not JSON. -/
  | decodeError
  /-- The body is the JSON value `null`. -/
  | jsonNull
  /-- The body decodes to an object. -/
  | json (data : ContactsData)

/-- What the `POST /send_message` comes back with; `json success` carries the
truthiness of `result.success`. -/
inductive SendOutcome where
  | networkError
  | decodeError
  | jsonNull
  | json (success : Bool)

/-- Network request issued through `fetch`. -/
inductive Request where
  /-- `fetch('/contacts')`. -/
  | getContacts
  /-- `fetch('/send_message', ...)`: method POST, JSON body with these two fields. -/
  | postSendMessage (contact_node_id : Str) (message : Str)
deriving DecidableEq

/-- Exceptions thrown by the script. -/
inductive JsError where
  | typeError
deriving DecidableEq

/-- The controller together with the document it drives and the effects it
has had on the outside. -/
structure State where
  /-- Field `this.contacts`; `none` is `undefined` or `null`. -/
  contacts : Option (List Contact)
  /-- Field `this.serverName`. -/
  serverName : Option Str
  /-- Field `this.nodeId`. -/
  nodeId : Option Str
  /-- Field `this.activeContact`; `none` is `null` or `undefined`. -/
  activeContact : Option Contact
  /-- Field `this.messageQueue`. -/
  messageQueue : List Str
  /-- Field `this.isConnected`. -/
  isConnected : Bool
  /-- Children of `#contactsList`. -/
  contactsList : List Node
  /-- Click listeners on the contact rows now in `#contactsList`: for each row
  its `dataset.contact` and `dataset.nodeId`. -/
  rowListeners : List (Option Str × Option Str)
  /-- Children of `#status`. -/
  status : List Node
  /-- Children of `#serverName`. -/
  serverNameLabel : List Node
  /-- Children of `#activeContact`. -/
  activeContactLabel : List Node
  /-- Children of `#chatMessages`. -/
  chatMessages : List Node
  /-- Value of `#messageInput`. -/
  messageInputValue : Str
  /-- Property `disabled` of `#messageInput`. -/
  messageInputDisabled : Bool
  /-- Property `disabled` of `#sendButton`. -/
  sendButtonDisabled : Bool
  /-- Requests issued so far, oldest first. -/
  requests : List Request
  /-- Texts shown by `alert`, oldest first. -/
  alerts : List Str
  /-- First argument of each `console.error` call, oldest first. -/
  consoleErrors : List Str

/-- The constructor, up to its call of `init`, on a given document. -/
def construct (doc : State) : State :=
  { doc with
    contacts := some [], serverName := some [], nodeId := some [],
    activeContact := none, messageQueue := [], isConnected := false }

/-! ### Markup templates -/

/-- Markup assigned by `renderContacts` for an empty contact list. -/
def noContactsMarkup : Str := "<div class=\"loading\">No contacts found</div>".toList

/-- Template literal of `renderContacts` for one contact. -/
def contactRowMarkup (contact : Contact) : Str :=
  "\n            <div class=\"contact-item\" data-contact=\"".toList ++ contact.name
  ++ "\" data-node-id=\"".toList ++ contact.node_id
  ++ "\">\n                <div class=\"contact-info\">\n                    <div class=\"contact-status ".toList
  ++ (if contact.status = "online".toList then "status-online".toList else "status-offline".toList)
  ++ "\"></div>\n                    <span>".toList ++ contact.name
  ++ "</span>\n                </div>\n                <div class=\"contact-last-seen\">".toList
  ++ contact.last_seen
  ++ "</div>\n            </div>\n        ".toList

/-- Template literal of `addMessageToChat`; `text` is the interpolated
`this.escapeHtml(message)` and `time` the interpolated
`new Date().toLocaleTimeString()`. -/
def bubbleMarkup (type text time : Str) : Str :=
  "\n            <div class=\"message-bubble ".toList ++ type
  ++ "\">\n                <div class=\"message-text\">".toList ++ text
  ++ "</div>\n                <div class=\"message-time\">".toList ++ time
  ++ "</div>\n            </div>\n        ".toList

/-- Template literal of `displayWelcomeMessage`. -/
def welcomeMarkup (name status : Str) : Str :=
  "\n                <div class=\"welcome-message\">\n                    <i class=\"fas fa-lock\"></i>\n                    <p>Secure chat with ".toList
  ++ name
  ++ "</p>\n                    <small>All messages are end-to-end encrypted</small>\n                    <small>Status: ".toList
  ++ status
  ++ "</small>\n                </div>\n            ".toList

/-- Markup assigned by `updateUI`. -/
def statusMarkup : Str :=
  "<i class=\"fas fa-circle online\"></i><span>Connected to P2P Network</span>".toList

/-! ### Methods -/

/-- Method `showError(message)`: a `console.error` and an `alert`. -/
def showError (st : State) (message : Str) : State :=
  { st with
    consoleErrors := st.consoleErrors ++ ["NexPing Error:".toList],
    alerts := st.alerts ++ ["Error: ".toList ++ message] }

/-- The `dataset.contact` and `dataset.nodeId` of a row. -/
def rowDataset : Node → Option Str × Option Str
  | .text _ => (none, none)
  | .element _ attrs _ => (getAttr "data-contact".toList attrs, getAttr "data-node-id".toList attrs)

/-- Method `renderContacts()`. Reading `length` of a contact list that is
`undefined` or `null` throws before anything is written. -/
def renderContacts (st : State) : Except JsError State :=
  match st.contacts with
  | none => .error JsError.typeError
  | some contacts =>
    if contacts.length = 0 then
      .ok { st with contactsList := setInnerHTML containerContext noContactsMarkup, rowListeners := [] }
    else
      let children := setInnerHTML containerContext (contacts.map contactRowMarkup).flatten
      let items := queryAllClass "contact-item".toList children
      .ok { st with contactsList := children, rowListeners := items.map rowDataset }

/-- Method `updateServerInfo()`; an `undefined` server name is written as the
empty text. -/
def updateServerInfo (st : State) : State :=
  { st with serverNameLabel := setTextContent (st.serverName.getD []) }

/-- Method `updateUI()`. -/
def updateUI (st : State) : State :=
  { st with status := setInnerHTML containerContext statusMarkup }

/-- Method `displayWelcomeMessage()`. -/
def displayWelcomeMessage (st : State) : State :=
  match st.activeContact with
  | some active =>
    { st with chatMessages := setInnerHTML containerContext (welcomeMarkup active.name active.status) }
  | none => st

/-- Method `loadChatHistory()`. -/
def loadChatHistory (st : State) : State :=
  match st.activeContact with
  | none => st
  | some _ => displayWelcomeMessage st

/-- Method `updateChatInterface()`. -/
def updateChatInterface (st : State) : State :=
  match st.activeContact with
  | some active => { st with activeContactLabel := setTextContent active.name }
  | none => st

/-- The assignment `this.activeContact.node_id = contactNodeId` as seen from
the contact list: the active contact is the first object of the list with the
name, so that object is the one written. -/
def setNodeIdOfFirst (contactName contactNodeId : Str) : List Contact → List Contact
  | [] => []
  | c :: cs =>
    if c.name = contactName then { c with node_id := contactNodeId } :: cs
    else c :: setNodeIdOfFirst contactName contactNodeId cs

/-- Method `selectContact(contactName, contactNodeId)`. Calling `find` on a
contact list that is `undefined` or `null` throws before anything is written. -/
def selectContact (st : State) (contactName contactNodeId : Str) : Except JsError State :=
  match st.contacts with
  | none => .error JsError.typeError
  | some contacts =>
    let st1 := { st with activeContact := contacts.find? (fun c => c.name = contactName) }
    match st1.activeContact with
    | some active =>
      let st2 := { st1 with
        activeContact := some { active with node_id := contactNodeId },
        contacts := some (setNodeIdOfFirst contactName contactNodeId contacts) }
      let st3 := loadChatHistory st2
      let st4 := updateChatInterface st3
      .ok { st4 with messageInputDisabled := false, sendButtonDisabled := false }
    | none => .ok st1

/-- The catch block of `loadContacts`. -/
def loadContactsCatch (st : State) : State :=
  showError { st with consoleErrors := st.consoleErrors ++ ["Failed to load contacts:".toList] }
    "Failed to load contacts".toList

/-- First part of `loadContacts()`: the request is issued. -/
def loadContactsIssue (st : State) : State :=
  { st with requests := st.requests ++ [Request.getContacts] }

/-- Second part of `loadContacts()`: what runs once the response is there. -/
def loadContactsSettle (st : State) : ContactsOutcome → State
  | .networkError => loadContactsCatch st
  | .decodeError => loadContactsCatch st
  | .jsonNull => loadContactsCatch st
  | .json data =>
    let st1 := { st with
      contacts := data.contacts, serverName := data.server_name, nodeId := data.node_id }
    match renderContacts st1 with
    | .ok st2 => updateServerInfo st2
    | .error _ => loadContactsCatch st1

/-- Method `loadContacts()`, with the outcome of its request. -/
def loadContacts (st : State) (outcome : ContactsOutcome) : State :=
  loadContactsSettle (loadContactsIssue st) outcome

/-- Whether `loadContacts` ends in its catch block. -/
def loadContactsFails (st : State) : ContactsOutcome → Bool
  | .networkError => true
  | .decodeError => true
  | .jsonNull => true
  | .json data =>
    match renderContacts { loadContactsIssue st with
      contacts := data.contacts, serverName := data.server_name, nodeId := data.node_id } with
    | .ok _ => false
    | .error _ => true

/-- White space and line terminators, the characters that `trim()` strips. -/
def isJsSpace (c : Char) : Bool :=
  c.toNat = 9 || c.toNat = 10 || c.toNat = 11 || c.toNat = 12 || c.toNat = 13
  || c.toNat = 32 || c.toNat = 160 || c.toNat = 5760
  || (8192 ≤ c.toNat && c.toNat ≤ 8202)
  || c.toNat = 8232 || c.toNat = 8233 || c.toNat = 8239 || c.toNat = 8287
  || c.toNat = 12288 || c.toNat = 65279

/-- String method `trim()`. -/
def jsTrim (s : Str) : Str :=
  ((s.dropWhile isJsSpace).reverse.dropWhile isJsSpace).reverse

/-- The element `messageElement` that `addMessageToChat(type, message)`
creates: a `div` with `className` set and `innerHTML` assigned; `time` is what
`new Date().toLocaleTimeString()` returns. -/
def messageElement (type message time : Str) : Node :=
  Node.element "div".toList [("class".toList, "message ".toList ++ type)]
    (setInnerHTML Context.flow (bubbleMarkup type (escapeHtml message) time))

/-- The chat pane after `addMessageToChat` has looked for `.welcome-message`
and removed the node found, if any. -/
def removeWelcomeMessage (chatMessages : List Node) : List Node :=
  match removeFirstClassList "welcome-message".toList chatMessages with
  | some rest => rest
  | none => chatMessages

/-- Method `addMessageToChat(type, message)`. -/
def addMessageToChat (st : State) (type message time : Str) : State :=
  { st with
    chatMessages := removeWelcomeMessage st.chatMessages ++ [messageElement type message time] }

/-- Method `sendMessage()` up to the `await` of its request. -/
def sendMessage (st : State) (time : Str) : State :=
  let message := jsTrim st.messageInputValue
  if message = [] || st.activeContact.isNone then st
  else
    let st1 := addMessageToChat st "outgoing".toList message time
    let st2 := { st1 with messageInputValue := [] }
    match st2.activeContact with
    | some active =>
      { st2 with requests := st2.requests ++ [Request.postSendMessage active.node_id message] }
    | none =>
      showError { st2 with consoleErrors := st2.consoleErrors ++ ["Error sending message:".toList] }
        "Network error".toList

/-- Method `sendMessage()` after the `await`: what runs once the response is
there. -/
def sendMessageSettle (st : State) : SendOutcome → State
  | .json true => st
  | .json false => showError st "Failed to send message".toList
  | _ =>
    showError { st with consoleErrors := st.consoleErrors ++ ["Error sending message:".toList] }
      "Network error".toList

/-- Method `handleKeyPress(e)`; `key` is `e.key`. -/
def handleKeyPress (st : State) (key time : Str) : State :=
  if key = "Enter".toList then sendMessage st time else st

/-- Method `init()`, with the outcome of the first contacts request. The two
listeners of `setupEventListeners` are `sendMessage` and `handleKeyPress`;
`startRealtimeUpdates` calls `loadContacts` every 5000 ms. -/
def init (st : State) (outcome : ContactsOutcome) : State :=
  updateUI (loadContacts st outcome)

/-! ### Sample data

The scenario of a page with one contact, used to evaluate the methods. -/

/-- The contact `{name: "Alice", node_id: "n1", status: "online", last_seen: "now"}`. -/
def alice : Contact := ⟨"Alice".toList, "n1".toList, "online".toList, "now".toList⟩

/-- A document with empty containers and disabled send controls. -/
def emptyDoc : State :=
  { contacts := none, serverName := none, nodeId := none, activeContact := none,
    messageQueue := [], isConnected := false,
    contactsList := [], rowListeners := [], status := [], serverNameLabel := [],
    activeContactLabel := [], chatMessages := [],
    messageInputValue := [], messageInputDisabled := true, sendButtonDisabled := true,
    requests := [], alerts := [], consoleErrors := [] }

/-- The response `{contacts: [alice], server_name: "Node-A", node_id: "me"}`. -/
def aliceResponse : ContactsOutcome :=
  .json ⟨some [alice], some "Node-A".toList, some "me".toList⟩

/-- The response `{}`: a JSON object without any of the three properties. -/
def emptyObjectResponse : ContactsOutcome := .json ⟨none, none, none⟩

/-- The page once `init` has run with `aliceResponse`. -/
def loadedState : State := init (construct emptyDoc) aliceResponse

/-- The page once Alice has been selected. -/
def aliceSelected : State :=
  match selectContact loadedState "Alice".toList "n1".toList with
  | .ok st => st
  | .error _ => loadedState

/-- The page once the user has typed " hi " after selecting Alice. -/
def aliceTyped : State := { aliceSelected with messageInputValue := " hi ".toList }

/-- The page with only white space typed after selecting Alice. -/
def aliceBlank : State := { aliceSelected with messageInputValue := " \t ".toList }

/-- The message of the markup example: an `img` tag with an `onerror` handler. -/
def imgMessage : Str := "<img src=x onerror=alert(1)>".toList

/-! ## Part 3: properties -/

set_option maxRecDepth 100000

/-! ### The platform: serialising text and parsing it back -/

theorem tokRun_escapeChar (c : Char) (rest : Str) :
    tokRun TState.data (escapeChar c ++ rest) = Token.char c :: tokRun TState.data rest := by
  unfold escapeChar
  by_cases h1 : c = '&'
  · subst h1; rfl
  · by_cases h2 : c = nbsp
    · subst h2; rfl
    · by_cases h3 : c = '<'
      · subst h3; rfl
      · by_cases h4 : c = '>'
        · subst h4; rfl
        · simp [h1, h2, h3, h4, tokRun, tokStep, dataStep]

theorem tokRun_escapeText (s rest : Str) :
    tokRun TState.data (escapeText s ++ rest) = s.map Token.char ++ tokRun TState.data rest := by
  induction s with
  | nil => simp [escapeText]
  | cons c cs ih =>
    have h : escapeText (c :: cs) = escapeChar c ++ escapeText cs := by
      simp [escapeText]
    rw [h, List.append_assoc, tokRun_escapeChar, ih]
    simp

theorem tokRun_data_escapeText (s : Str) :
    tokRun TState.data (escapeText s) = s.map Token.char := by
  have h := tokRun_escapeText s []
  simpa [tokRun, tokFlush] using h

theorem escapeText_cons (c : Char) (cs : Str) :
    escapeText (c :: cs) = escapeChar c ++ escapeText cs := by
  simp [escapeText]

theorem normalizeNewlinesFrom_escapeChar (b : Bool) (c : Char) (rest : Str)
    (hcr : c ≠ '\r') (hlf : c ≠ '\n') :
    normalizeNewlinesFrom b (escapeChar c ++ rest) =
      escapeChar c ++ normalizeNewlinesFrom false rest := by
  unfold escapeChar
  by_cases h1 : c = '&'
  · subst h1; rfl
  · by_cases h2 : c = nbsp
    · subst h2; rfl
    · by_cases h3 : c = '<'
      · subst h3; rfl
      · by_cases h4 : c = '>'
        · subst h4; rfl
        · simp [h1, h2, h3, h4, normalizeNewlinesFrom, hcr, hlf]

theorem normalizeNewlinesFrom_cr (b : Bool) (cs : Str) :
    normalizeNewlinesFrom b ('\r' :: cs) = '\n' :: normalizeNewlinesFrom true cs := by
  simp [normalizeNewlinesFrom]

theorem normalizeNewlinesFrom_lf_true (cs : Str) :
    normalizeNewlinesFrom true ('\n' :: cs) = normalizeNewlinesFrom false cs := by
  simp [normalizeNewlinesFrom]

theorem normalizeNewlinesFrom_lf_false (cs : Str) :
    normalizeNewlinesFrom false ('\n' :: cs) = '\n' :: normalizeNewlinesFrom false cs := by
  simp [normalizeNewlinesFrom]

theorem normalizeNewlinesFrom_other (b : Bool) (c : Char) (cs : Str)
    (hcr : c ≠ '\r') (hlf : c ≠ '\n') :
    normalizeNewlinesFrom b (c :: cs) = c :: normalizeNewlinesFrom false cs := by
  simp [normalizeNewlinesFrom, hcr, hlf]

theorem normalizeNewlinesFrom_escapeText (b : Bool) (s : Str) :
    normalizeNewlinesFrom b (escapeText s) = escapeText (normalizeNewlinesFrom b s) := by
  induction s generalizing b with
  | nil => rfl
  | cons c cs ih =>
    rw [escapeText_cons]
    by_cases hcr : c = '\r'
    · subst hcr
      have h1 : escapeChar '\r' = ['\r'] := rfl
      have h2 : escapeChar '\n' = ['\n'] := rfl
      rw [h1, List.singleton_append, normalizeNewlinesFrom_cr, normalizeNewlinesFrom_cr,
        escapeText_cons, h2, List.singleton_append, ih]
    · by_cases hlf : c = '\n'
      · subst hlf
        have h1 : escapeChar '\n' = ['\n'] := rfl
        rw [h1, List.singleton_append]
        cases b
        · rw [normalizeNewlinesFrom_lf_false, normalizeNewlinesFrom_lf_false, escapeText_cons,
            h1, List.singleton_append, ih]
        · rw [normalizeNewlinesFrom_lf_true, normalizeNewlinesFrom_lf_true, ih]
      · rw [normalizeNewlinesFrom_escapeChar b c _ hcr hlf, ih,
          normalizeNewlinesFrom_other b c cs hcr hlf, escapeText_cons]

theorem addChar_foldl_text (d : Str) (rest : List Node) (s : Str) :
    s.foldl addChar (Node.text d :: rest) = Node.text (d ++ s) :: rest := by
  induction s generalizing d with
  | nil => simp
  | cons c cs ih => simp [addChar, ih]

theorem build_chars (s : Str) (stack : List Frame) (cur : List Node) :
    build (s.map Token.char) false stack cur =
      closeAll stack ((s.filter (fun c => c ≠ nul)).foldl addChar cur) := by
  induction s generalizing cur with
  | nil => simp [build]
  | cons c cs ih =>
    by_cases h : c = nul
    · simp [build, ih, h]
    · simp [build, ih, h]

theorem parseFragment_flow_escapeText (s : Str) :
    parseFragment Context.flow (escapeText s) = setTextContent (parsedText s) := by
  unfold parseFragment setTextContent parsedText preprocess
  rw [normalizeNewlinesFrom_escapeText]
  simp only [Context.initial]
  rw [tokRun_data_escapeText, build_chars]
  cases h : (normalizeNewlinesFrom false s).filter (fun c => c ≠ nul) with
  | nil => simp [closeAll]
  | cons c cs => simp [addChar, addChar_foldl_text, closeAll]

theorem getInnerHTML_setTextContent (s : Str) :
    getInnerHTML (setTextContent s) = escapeText s := by
  unfold getInnerHTML setTextContent
  split
  · next h => subst h; simp [serializeList, escapeText]
  · simp [serializeList, Node.serialize]

theorem setInnerHTML_flow_eq (s : Str) :
    setInnerHTML Context.flow s = setTextContent (parsedText s) := by
  simp [setInnerHTML, originalInnerHTML, getInnerHTML_setTextContent,
    parseFragment_flow_escapeText]

theorem escapeHtml_eq (s : Str) : escapeHtml s = escapeText s := by
  simp [escapeHtml, getInnerHTML_setTextContent]

theorem textContentList_setTextContent (s : Str) :
    textContentList (setTextContent s) = s := by
  unfold setTextContent
  split
  · next h => subst h; simp [textContentList]
  · simp [textContentList, Node.textContent]

theorem countElementsList_setTextContent (s : Str) :
    countElementsList (setTextContent s) = 0 := by
  unfold setTextContent
  split <;> simp [countElementsList, Node.countElements]

theorem queryAllClass_setTextContent (cls s : Str) :
    queryAllClass cls (setTextContent s) = [] := by
  unfold setTextContent
  split <;> simp [queryAllClass, Node.hasClass, Node.descendantsWithClass]

/-- The native setter does build elements from markup: the row template of
`renderContacts`, parsed natively, is one `.contact-item` row carrying the
contact's name and node id. -/
theorem originalInnerHTML_builds_rows :
    (queryAllClass "contact-item".toList
        (originalInnerHTML Context.flow (contactRowMarkup alice))).map
        rowDataset = [(some "Alice".toList, some "n1".toList)]
      ∧ countElementsList (originalInnerHTML Context.flow (contactRowMarkup alice)) = 5 := by
  constructor <;> rfl

/-! ### Text without CR and U+0000 is parsed as it is -/

theorem normalizeNewlinesFrom_clean (b : Bool) (s : Str) (h : ∀ c ∈ s, c ≠ '\r')
    (hb : b = false ∨ s.head? ≠ some '\n') :
    normalizeNewlinesFrom b s = s := by
  induction s generalizing b with
  | nil => rfl
  | cons c cs ih =>
    have hc : c ≠ '\r' := h c (by simp)
    have hcs : ∀ x ∈ cs, x ≠ '\r' := fun x hx => h x (by simp [hx])
    have hskip : (c = '\n' ∧ b = true) → False := by
      rintro ⟨h1, h2⟩
      rcases hb with hb | hb
      · simp [hb] at h2
      · simp [h1] at hb
    by_cases h1 : c = '\n'
    · cases b
      · simp [normalizeNewlinesFrom, hc, ih false hcs (Or.inl rfl)]
      · exact absurd ⟨h1, rfl⟩ hskip
    · simp [normalizeNewlinesFrom, hc, h1, ih false hcs (Or.inl rfl)]

theorem parsedText_clean (s : Str) (h : ∀ c ∈ s, c ≠ '\r' ∧ c ≠ nul) : parsedText s = s := by
  unfold parsedText preprocess
  rw [normalizeNewlinesFrom_clean false s (fun c hc => (h c hc).1) (Or.inl rfl)]
  rw [List.filter_eq_self]
  intro c hc
  simpa using (h c hc).2

theorem parsedText_cons_ne_nil (c : Char) (rest : Str) (hc : c ≠ nul) :
    parsedText (c :: rest) ≠ [] := by
  unfold parsedText preprocess
  by_cases h1 : c = '\r'
  · subst h1
    rw [normalizeNewlinesFrom_cr, List.filter_cons_of_pos (by decide)]
    exact List.cons_ne_nil _ _
  · by_cases h2 : c = '\n'
    · subst h2
      rw [normalizeNewlinesFrom_lf_false, List.filter_cons_of_pos (by decide)]
      exact List.cons_ne_nil _ _
    · rw [normalizeNewlinesFrom_other false c rest h1 h2,
        List.filter_cons_of_pos (by simpa using hc)]
      exact List.cons_ne_nil _ _

/-! ### Templates are never empty -/

theorem welcomeMarkup_parsed_ne_nil (name status : Str) :
    parsedText (welcomeMarkup name status) ≠ [] := by
  have h : ∃ rest, welcomeMarkup name status = '\n' :: rest := ⟨_, rfl⟩
  obtain ⟨rest, h⟩ := h
  rw [h]
  exact parsedText_cons_ne_nil _ _ (by decide)

theorem bubbleMarkup_parsed_ne_nil (type text time : Str) :
    parsedText (bubbleMarkup type text time) ≠ [] := by
  have h : ∃ rest, bubbleMarkup type text time = '\n' :: rest := ⟨_, rfl⟩
  obtain ⟨rest, h⟩ := h
  rw [h]
  exact parsedText_cons_ne_nil _ _ (by decide)

theorem rows_parsed_ne_nil (c : Contact) (cs : List Contact) :
    parsedText ((c :: cs).map contactRowMarkup).flatten ≠ [] := by
  have h : ∃ rest, ((c :: cs).map contactRowMarkup).flatten = '\n' :: rest := ⟨_, rfl⟩
  obtain ⟨rest, h⟩ := h
  rw [h]
  exact parsedText_cons_ne_nil _ _ (by decide)

theorem welcomeMarkup_clean (name status : Str)
    (h : ∀ ch ∈ name ++ status, ch ≠ '\r' ∧ ch ≠ nul) :
    ∀ ch ∈ welcomeMarkup name status, ch ≠ '\r' ∧ ch ≠ nul := by
  intro ch hch
  unfold welcomeMarkup at hch
  simp only [List.mem_append] at hch
  rcases hch with (((hch | hch) | hch) | hch) | hch
  · revert ch; decide
  · exact h ch (List.mem_append.mpr (Or.inl hch))
  · revert ch; decide
  · exact h ch (List.mem_append.mpr (Or.inr hch))
  · revert ch; decide

theorem textContentList_text (s : Str) : textContentList [Node.text s] = s := by
  simp [textContentList, Node.textContent]

theorem messageElement_eq (type message time : Str) :
    messageElement type message time =
      Node.element "div".toList [("class".toList, "message ".toList ++ type)]
        [Node.text (parsedText (bubbleMarkup type (escapeText message) time))] := by
  simp only [messageElement, setInnerHTML_flow_eq, escapeHtml_eq, setTextContent,
    bubbleMarkup_parsed_ne_nil, if_false]

/-! ### `trim` -/

theorem jsTrim_eq_nil (s : Str) (h : ∀ c ∈ s, isJsSpace c = true) : jsTrim s = [] := by
  have h1 : s.dropWhile isJsSpace = [] := by
    rw [List.dropWhile_eq_nil_iff]
    exact h
  simp [jsTrim, h1]

/-! ### Lookup by name -/

theorem find_first_split (name nodeId : Str) (contacts : List Contact)
    (h : ∃ c ∈ contacts, c.name = name) :
    ∃ c before after,
      contacts = before ++ c :: after ∧ (∀ x ∈ before, x.name ≠ name) ∧ c.name = name ∧
      contacts.find? (fun x => decide (x.name = name)) = some c ∧
      setNodeIdOfFirst name nodeId contacts = before ++ { c with node_id := nodeId } :: after := by
  induction contacts with
  | nil => simp at h
  | cons x xs ih =>
    by_cases hx : x.name = name
    · exact ⟨x, [], xs, by simp, by simp, hx, by simp [hx], by simp [setNodeIdOfFirst, hx]⟩
    · have h1 : ∃ c ∈ xs, c.name = name := by
        obtain ⟨c, hc, hn⟩ := h
        rcases List.mem_cons.mp hc with rfl | hc1
        · exact absurd hn hx
        · exact ⟨c, hc1, hn⟩
      obtain ⟨c, before, after, h2, h3, h4, h5, h6⟩ := ih h1
      refine ⟨c, x :: before, after, by simp [h2], ?_, h4, by simp [hx, h5], ?_⟩
      · intro y hy
        rcases List.mem_cons.mp hy with rfl | hy1
        · exact hx
        · exact h3 y hy1
      · simp [setNodeIdOfFirst, hx, h6]

theorem find_absent (name : Str) (contacts : List Contact)
    (h : ∀ c ∈ contacts, c.name ≠ name) :
    contacts.find? (fun x => decide (x.name = name)) = none := by
  rw [List.find?_eq_none]
  intro c hc
  simpa using h c hc

/-! ### What `selectContact` returns -/

theorem selectContact_found (st : State) (contacts : List Contact) (name nodeId : Str)
    (c : Contact) (hlist : st.contacts = some contacts)
    (hfind : contacts.find? (fun x => decide (x.name = name)) = some c) :
    selectContact st name nodeId = .ok
      { st with
        activeContact := some { c with node_id := nodeId },
        contacts := some (setNodeIdOfFirst name nodeId contacts),
        chatMessages := setInnerHTML containerContext (welcomeMarkup c.name c.status),
        activeContactLabel := setTextContent c.name,
        messageInputDisabled := false,
        sendButtonDisabled := false } := by
  simp [selectContact, hlist, hfind, loadChatHistory, displayWelcomeMessage, updateChatInterface]

theorem selectContact_not_found (st : State) (contacts : List Contact) (name nodeId : Str)
    (hlist : st.contacts = some contacts) (habsent : ∀ c ∈ contacts, c.name ≠ name) :
    selectContact st name nodeId = .ok { st with activeContact := none } := by
  simp [selectContact, hlist, find_absent name contacts habsent]

/-! ### Selection -/

/-- C1, evaluated on the code: with Alice active and only Alice in the contact
list, `selectContact("Bob", "n2")` returns normally and leaves the message
input and the send button as they were, but `activeContact` is no longer
Alice: the result of `find` is stored before it is tested. -/
theorem selectContact_absent_clears_activeContact :
    aliceTyped.contacts = some [alice] ∧
    (∀ c ∈ [alice], c.name ≠ "Bob".toList) ∧
    aliceTyped.activeContact = some alice ∧
    ∃ st1, selectContact aliceTyped "Bob".toList "n2".toList = .ok st1 ∧
      st1.activeContact = none ∧
      st1.activeContact ≠ aliceTyped.activeContact ∧
      st1.messageInputDisabled = aliceTyped.messageInputDisabled ∧
      st1.sendButtonDisabled = aliceTyped.sendButtonDisabled ∧
      textContentList st1.activeContactLabel = "Alice".toList := by
  refine ⟨rfl, by decide, rfl, _, rfl, rfl, by decide, rfl, rfl, rfl⟩

/-- C4: when the contact list holds a contact named `name`, `selectContact`
returns normally; the first contact of the list with that name, with its
`node_id` set to the supplied one, becomes the active contact and replaces
itself in the list; the chat pane becomes one text node, the welcome template
around "Secure chat with", the contact's name, "Status:" and the contact's
status, as the parser reads text (CR LF and CR as LF, U+0000 dropped), hence
with name and status verbatim when they hold neither CR nor U+0000; the
active-contact label shows the name; the message input and the send button are
enabled. -/
theorem selectContact_present (st : State) (contacts : List Contact) (name nodeId : Str)
    (hlist : st.contacts = some contacts) (hname : ∃ c ∈ contacts, c.name = name) :
    ∃ c before after st1,
      contacts = before ++ c :: after ∧ (∀ x ∈ before, x.name ≠ name) ∧
      c.name = name ∧
      selectContact st name nodeId = .ok st1 ∧
      st1.activeContact = some { c with node_id := nodeId } ∧
      st1.contacts = some (before ++ { c with node_id := nodeId } :: after) ∧
      st1.chatMessages = [Node.text (parsedText (welcomeMarkup c.name c.status))] ∧
      textContentList st1.chatMessages =
        parsedText
          ("\n                <div class=\"welcome-message\">\n                    <i class=\"fas fa-lock\"></i>\n                    <p>Secure chat with ".toList
            ++ c.name
            ++ "</p>\n                    <small>All messages are end-to-end encrypted</small>\n                    <small>Status: ".toList
            ++ c.status
            ++ "</small>\n                </div>\n            ".toList) ∧
      ((∀ ch ∈ c.name ++ c.status, ch ≠ '\r' ∧ ch ≠ nul) →
        textContentList st1.chatMessages =
          "\n                <div class=\"welcome-message\">\n                    <i class=\"fas fa-lock\"></i>\n                    <p>Secure chat with ".toList
            ++ c.name
            ++ "</p>\n                    <small>All messages are end-to-end encrypted</small>\n                    <small>Status: ".toList
            ++ c.status
            ++ "</small>\n                </div>\n            ".toList) ∧
      st1.activeContactLabel = setTextContent c.name ∧
      textContentList st1.activeContactLabel = c.name ∧
      st1.messageInputDisabled = false ∧ st1.sendButtonDisabled = false := by
  obtain ⟨c, before, after, h1, h2, h3, h4, h5⟩ := find_first_split name nodeId contacts hname
  have hpane : setInnerHTML containerContext (welcomeMarkup c.name c.status) =
      [Node.text (parsedText (welcomeMarkup c.name c.status))] := by
    simp only [containerContext, setInnerHTML_flow_eq, setTextContent,
      welcomeMarkup_parsed_ne_nil, if_false]
  have hsel := selectContact_found st contacts name nodeId c hlist h4
  refine ⟨c, before, after, _, h1, h2, h3, hsel, ?_, ?_, ?_, ?_, ?_, ?_, ?_, ?_, ?_⟩
  · rfl
  · simp only [h5]
  · simp only [hpane]
  · simp only [hpane, textContentList_text]
    simp only [welcomeMarkup]
  · intro hclean
    simp only [hpane, textContentList_text]
    rw [parsedText_clean _ (welcomeMarkup_clean c.name c.status hclean)]
    simp only [welcomeMarkup]
  · rfl
  · exact textContentList_setTextContent c.name
  · rfl
  · rfl

/-- C4 at the one-contact page: selecting Alice. -/
theorem selectContact_present_witness :
    loadedState.contacts = some [alice] ∧ (∃ c ∈ [alice], c.name = "Alice".toList) ∧
    ∃ c before after st1,
      [alice] = before ++ c :: after ∧ (∀ x ∈ before, x.name ≠ "Alice".toList) ∧
      c.name = "Alice".toList ∧
      selectContact loadedState "Alice".toList "n7".toList = .ok st1 ∧
      st1.activeContact = some { c with node_id := "n7".toList } ∧
      st1.contacts = some (before ++ { c with node_id := "n7".toList } :: after) ∧
      st1.chatMessages = [Node.text (parsedText (welcomeMarkup c.name c.status))] ∧
      textContentList st1.chatMessages =
        parsedText
          ("\n                <div class=\"welcome-message\">\n                    <i class=\"fas fa-lock\"></i>\n                    <p>Secure chat with ".toList
            ++ c.name
            ++ "</p>\n                    <small>All messages are end-to-end encrypted</small>\n                    <small>Status: ".toList
            ++ c.status
            ++ "</small>\n                </div>\n            ".toList) ∧
      ((∀ ch ∈ c.name ++ c.status, ch ≠ '\r' ∧ ch ≠ nul) →
        textContentList st1.chatMessages =
          "\n                <div class=\"welcome-message\">\n                    <i class=\"fas fa-lock\"></i>\n                    <p>Secure chat with ".toList
            ++ c.name
            ++ "</p>\n                    <small>All messages are end-to-end encrypted</small>\n                    <small>Status: ".toList
            ++ c.status
            ++ "</small>\n                </div>\n            ".toList) ∧
      st1.activeContactLabel = setTextContent c.name ∧
      textContentList st1.activeContactLabel = c.name ∧
      st1.messageInputDisabled = false ∧ st1.sendButtonDisabled = false :=
  ⟨rfl, ⟨alice, by simp, rfl⟩,
    selectContact_present loadedState [alice] "Alice".toList "n7".toList rfl
      ⟨alice, by simp, rfl⟩⟩

/-! ### Sending -/

/-- C2: with a non-empty trimmed text and an active contact, `sendMessage`
appends one element of class `message outgoing` to the chat pane (after the
welcome node, if any, is removed), empties the input field and issues one POST
to `/send_message` carrying the active contact's `node_id` and the trimmed
text, all before the response is awaited; the code that runs on the response
issues no request and touches neither the input field nor the chat pane. -/
theorem sendMessage_valid (st : State) (time : Str) (active : Contact)
    (htext : jsTrim st.messageInputValue ≠ []) (hactive : st.activeContact = some active) :
    (sendMessage st time).chatMessages =
        removeWelcomeMessage st.chatMessages ++
          [messageElement "outgoing".toList (jsTrim st.messageInputValue) time] ∧
    (messageElement "outgoing".toList (jsTrim st.messageInputValue) time).hasClass
        "outgoing".toList = true ∧
    (sendMessage st time).messageInputValue = [] ∧
    (sendMessage st time).requests =
        st.requests ++ [Request.postSendMessage active.node_id (jsTrim st.messageInputValue)] ∧
    (sendMessage st time).activeContact = st.activeContact ∧
    (sendMessage st time).alerts = st.alerts ∧
    ∀ outcome : SendOutcome,
      (sendMessageSettle (sendMessage st time) outcome).requests =
          (sendMessage st time).requests ∧
      (sendMessageSettle (sendMessage st time) outcome).messageInputValue = [] ∧
      (sendMessageSettle (sendMessage st time) outcome).chatMessages =
          (sendMessage st time).chatMessages := by
  have hs : sendMessage st time =
      { addMessageToChat st "outgoing".toList (jsTrim st.messageInputValue) time with
        messageInputValue := [],
        requests := st.requests ++
          [Request.postSendMessage active.node_id (jsTrim st.messageInputValue)] } := by
    simp [sendMessage, htext, hactive, addMessageToChat]
  rw [hs]
  refine ⟨rfl, rfl, rfl, rfl, rfl, rfl, ?_⟩
  intro outcome
  cases outcome with
  | json success => cases success <;> exact ⟨rfl, rfl, rfl⟩
  | _ => exact ⟨rfl, rfl, rfl⟩

/-- C2 at the one-contact page: " hi " is sent to Alice as "hi". -/
theorem sendMessage_valid_witness :
    jsTrim aliceTyped.messageInputValue ≠ [] ∧ aliceTyped.activeContact = some alice ∧
    (sendMessage aliceTyped "12:00".toList).messageInputValue = [] ∧
    (sendMessage aliceTyped "12:00".toList).requests =
      aliceTyped.requests ++
        [Request.postSendMessage alice.node_id (jsTrim aliceTyped.messageInputValue)] :=
  ⟨by decide, rfl,
    (sendMessage_valid aliceTyped "12:00".toList alice (by decide) rfl).2.2.1,
    (sendMessage_valid aliceTyped "12:00".toList alice (by decide) rfl).2.2.2.1⟩

/-- C3: when the input holds only white space (or nothing), or no contact is
active, `sendMessage` returns the state it was given: no bubble, the same
input field and active contact, no request, no alert. -/
theorem sendMessage_noop (st : State) (time : Str)
    (h : (∀ c ∈ st.messageInputValue, isJsSpace c = true) ∨ st.activeContact = none) :
    sendMessage st time = st := by
  rcases h with h | h
  · simp [sendMessage, jsTrim_eq_nil _ h]
  · simp [sendMessage, h]

/-- C3 at the one-contact page with only blanks typed. -/
theorem sendMessage_noop_witness :
    ((∀ c ∈ aliceBlank.messageInputValue, isJsSpace c = true) ∨ aliceBlank.activeContact = none) ∧
    sendMessage aliceBlank "12:00".toList = aliceBlank :=
  ⟨Or.inl (by decide), sendMessage_noop aliceBlank "12:00".toList (Or.inl (by decide))⟩

/-! ### Contact synchronisation -/

/-- C5 as stated fails: on the one-contact page, the response `{}` makes
`loadContacts` end in its catch block (reading `length` of the missing list
throws in `renderContacts`), the "Failed to load contacts" alert is shown, and
by then the contact list and the server identity have been overwritten. -/
theorem loadContacts_failure_after_overwrite :
    loadContactsFails aliceTyped emptyObjectResponse = true ∧
    (loadContacts aliceTyped emptyObjectResponse).alerts =
      aliceTyped.alerts ++ ["Error: Failed to load contacts".toList] ∧
    aliceTyped.contacts = some [alice] ∧
    (loadContacts aliceTyped emptyObjectResponse).contacts = none ∧
    (loadContacts aliceTyped emptyObjectResponse).contacts ≠ aliceTyped.contacts ∧
    aliceTyped.serverName = some "Node-A".toList ∧
    (loadContacts aliceTyped emptyObjectResponse).serverName = none ∧
    aliceTyped.nodeId = some "me".toList ∧
    (loadContacts aliceTyped emptyObjectResponse).nodeId = none := by
  refine ⟨rfl, rfl, rfl, rfl, by decide, rfl, rfl, rfl, rfl⟩

/-- C5, amended: when the request fails or the body fails to decode,
`loadContacts` ends in its catch block, shows the "Failed to load contacts"
alert, and leaves the contact list, the server identity and the rendered
contact list as they were. -/
theorem loadContacts_request_or_decode_failure (st : State) :
    (loadContactsFails st .networkError = true ∧
      (loadContacts st .networkError).alerts =
        st.alerts ++ ["Error: Failed to load contacts".toList] ∧
      (loadContacts st .networkError).contacts = st.contacts ∧
      (loadContacts st .networkError).serverName = st.serverName ∧
      (loadContacts st .networkError).nodeId = st.nodeId ∧
      (loadContacts st .networkError).contactsList = st.contactsList ∧
      (loadContacts st .networkError).serverNameLabel = st.serverNameLabel) ∧
    (loadContactsFails st .decodeError = true ∧
      (loadContacts st .decodeError).alerts =
        st.alerts ++ ["Error: Failed to load contacts".toList] ∧
      (loadContacts st .decodeError).contacts = st.contacts ∧
      (loadContacts st .decodeError).serverName = st.serverName ∧
      (loadContacts st .decodeError).nodeId = st.nodeId ∧
      (loadContacts st .decodeError).contactsList = st.contactsList ∧
      (loadContacts st .decodeError).serverNameLabel = st.serverNameLabel) :=
  ⟨⟨rfl, rfl, rfl, rfl, rfl, rfl, rfl⟩, ⟨rfl, rfl, rfl, rfl, rfl, rfl, rfl⟩⟩

/-- C9: whatever the response, `loadContacts` (and, from any state reached
while the request is pending, the part of it that runs on the response) leaves
the active contact, the chat pane, the input field, the disabled state of the
message input and the send button, the active-contact label, the status
indicator, the message queue and the connection flag as they were: of the
controller and the document, only the contact list, the server identity and
their rendered views can change. -/
theorem loadContacts_frame (st : State) (outcome : ContactsOutcome) :
    ((loadContacts st outcome).activeContact = st.activeContact ∧
      (loadContacts st outcome).chatMessages = st.chatMessages ∧
      (loadContacts st outcome).messageInputValue = st.messageInputValue ∧
      (loadContacts st outcome).messageInputDisabled = st.messageInputDisabled ∧
      (loadContacts st outcome).sendButtonDisabled = st.sendButtonDisabled ∧
      (loadContacts st outcome).activeContactLabel = st.activeContactLabel ∧
      (loadContacts st outcome).status = st.status ∧
      (loadContacts st outcome).messageQueue = st.messageQueue ∧
      (loadContacts st outcome).isConnected = st.isConnected) ∧
    ((loadContactsSettle st outcome).activeContact = st.activeContact ∧
      (loadContactsSettle st outcome).chatMessages = st.chatMessages ∧
      (loadContactsSettle st outcome).messageInputValue = st.messageInputValue ∧
      (loadContactsSettle st outcome).messageInputDisabled = st.messageInputDisabled ∧
      (loadContactsSettle st outcome).sendButtonDisabled = st.sendButtonDisabled ∧
      (loadContactsSettle st outcome).activeContactLabel = st.activeContactLabel ∧
      (loadContactsSettle st outcome).status = st.status ∧
      (loadContactsSettle st outcome).messageQueue = st.messageQueue ∧
      (loadContactsSettle st outcome).isConnected = st.isConnected) := by
  have key : ∀ s : State,
      (loadContactsSettle s outcome).activeContact = s.activeContact ∧
      (loadContactsSettle s outcome).chatMessages = s.chatMessages ∧
      (loadContactsSettle s outcome).messageInputValue = s.messageInputValue ∧
      (loadContactsSettle s outcome).messageInputDisabled = s.messageInputDisabled ∧
      (loadContactsSettle s outcome).sendButtonDisabled = s.sendButtonDisabled ∧
      (loadContactsSettle s outcome).activeContactLabel = s.activeContactLabel ∧
      (loadContactsSettle s outcome).status = s.status ∧
      (loadContactsSettle s outcome).messageQueue = s.messageQueue ∧
      (loadContactsSettle s outcome).isConnected = s.isConnected := by
    intro s
    cases outcome with
    | networkError => exact ⟨rfl, rfl, rfl, rfl, rfl, rfl, rfl, rfl, rfl⟩
    | decodeError => exact ⟨rfl, rfl, rfl, rfl, rfl, rfl, rfl, rfl, rfl⟩
    | jsonNull => exact ⟨rfl, rfl, rfl, rfl, rfl, rfl, rfl, rfl, rfl⟩
    | json data =>
      obtain ⟨contacts, server_name, node_id⟩ := data
      cases contacts with
      | none => exact ⟨rfl, rfl, rfl, rfl, rfl, rfl, rfl, rfl, rfl⟩
      | some cs =>
        cases cs with
        | nil => exact ⟨rfl, rfl, rfl, rfl, rfl, rfl, rfl, rfl, rfl⟩
        | cons c rest => exact ⟨rfl, rfl, rfl, rfl, rfl, rfl, rfl, rfl, rfl⟩
  exact ⟨key (loadContactsIssue st), key st⟩

/-! ### Rendering -/

/-- C7 as stated fails: on a `div`, assigning "a\rb" leaves the text "a\nb"
and assigning "a", U+0000, "b" leaves "ab"; on a `style` element, whose
content is raw text, assigning "<b>" leaves the text "&lt;b&gt;". -/
theorem setInnerHTML_changes_text :
    contextOfTag "div".toList = some Context.flow ∧
    textContentList (setInnerHTML Context.flow "a\rb".toList) = "a\nb".toList ∧
    textContentList (setInnerHTML Context.flow "a\rb".toList) ≠ "a\rb".toList ∧
    textContentList (setInnerHTML Context.flow ['a', nul, 'b']) = "ab".toList ∧
    textContentList (setInnerHTML Context.flow ['a', nul, 'b']) ≠ ['a', nul, 'b'] ∧
    contextOfTag "style".toList = some Context.rawtext ∧
    textContentList (setInnerHTML Context.rawtext "<b>".toList) = "&lt;b&gt;".toList ∧
    textContentList (setInnerHTML Context.rawtext "<b>".toList) ≠ "<b>".toList := by
  refine ⟨rfl, rfl, by decide, rfl, by decide, rfl, rfl, by decide⟩

/-- C7, amended: under the installed setter, assigning a string without CR and
U+0000 to `innerHTML` of an element whose content is parsed as markup in the
"in body" insertion mode (a `div` and the like) leaves the element with that
string as plain text (one text node, none for the empty string) and without
any element. For any string the element is left with
plain text and without any element, the text being the string with CR LF and
CR turned into LF and U+0000 removed; so it is at each assignment the script
makes, in `renderContacts`, `updateUI`, `displayWelcomeMessage` and
`addMessageToChat`. -/
theorem setInnerHTML_plain_text (value : Str) (hclean : ∀ c ∈ value, c ≠ '\r' ∧ c ≠ nul) :
    setInnerHTML Context.flow value = (if value = [] then [] else [Node.text value]) ∧
    textContentList (setInnerHTML Context.flow value) = value ∧
    countElementsList (setInnerHTML Context.flow value) = 0 ∧
    (∀ s : Str,
      setInnerHTML Context.flow s =
        (if parsedText s = [] then [] else [Node.text (parsedText s)]) ∧
      textContentList (setInnerHTML Context.flow s) = parsedText s ∧
      countElementsList (setInnerHTML Context.flow s) = 0) ∧
    (∀ st : State, (updateUI st).status = [Node.text statusMarkup]) ∧
    (∀ (st : State) (c : Contact),
      (displayWelcomeMessage { st with activeContact := some c }).chatMessages =
        [Node.text (parsedText (welcomeMarkup c.name c.status))]) ∧
    (∀ type message time : Str,
      messageElement type message time =
        Node.element "div".toList [("class".toList, "message ".toList ++ type)]
          [Node.text (parsedText (bubbleMarkup type (escapeHtml message) time))]) ∧
    (∀ st : State,
      renderContacts { st with contacts := some [] } =
        .ok { st with
          contacts := some [], contactsList := [Node.text noContactsMarkup],
          rowListeners := [] }) ∧
    (∀ (st : State) (c : Contact) (cs : List Contact),
      renderContacts { st with contacts := some (c :: cs) } =
        .ok { st with
          contacts := some (c :: cs),
          contactsList := [Node.text (parsedText ((c :: cs).map contactRowMarkup).flatten)],
          rowListeners := [] }) := by
  have hgen : ∀ s : Str,
      setInnerHTML Context.flow s =
        (if parsedText s = [] then [] else [Node.text (parsedText s)]) ∧
      textContentList (setInnerHTML Context.flow s) = parsedText s ∧
      countElementsList (setInnerHTML Context.flow s) = 0 := by
    intro s
    rw [setInnerHTML_flow_eq]
    exact ⟨rfl, textContentList_setTextContent _, countElementsList_setTextContent _⟩
  have hv := hgen value
  rw [parsedText_clean value hclean] at hv
  refine ⟨hv.1, hv.2.1, hv.2.2, hgen, ?_, ?_, ?_, ?_, ?_⟩
  · intro st
    simp only [updateUI, containerContext, setInnerHTML_flow_eq]
    rfl
  · intro st c
    simp only [displayWelcomeMessage, containerContext, setInnerHTML_flow_eq, setTextContent,
      welcomeMarkup_parsed_ne_nil, if_false]
  · intro type message time
    rw [messageElement_eq, escapeHtml_eq]
  · intro st
    simp only [renderContacts, containerContext, setInnerHTML_flow_eq]
    rfl
  · intro st c cs
    have h := rows_parsed_ne_nil c cs
    simp only [renderContacts, List.length_cons, Nat.add_one_ne_zero, if_false,
      containerContext, setInnerHTML_flow_eq, queryAllClass_setTextContent, List.map_nil]
    rw [setTextContent, if_neg h]

/-- C7, amended, at the markup that `updateUI` assigns. -/
theorem setInnerHTML_plain_text_witness :
    (∀ c ∈ statusMarkup, c ≠ '\r' ∧ c ≠ nul) ∧
    setInnerHTML Context.flow statusMarkup =
      (if statusMarkup = [] then [] else [Node.text statusMarkup]) ∧
    textContentList (setInnerHTML Context.flow statusMarkup) = statusMarkup ∧
    countElementsList (setInnerHTML Context.flow statusMarkup) = 0 :=
  ⟨by decide, (setInnerHTML_plain_text statusMarkup (by decide)).1,
    (setInnerHTML_plain_text statusMarkup (by decide)).2.1,
    (setInnerHTML_plain_text statusMarkup (by decide)).2.2.1⟩

/-- C10: with an empty contact list, `renderContacts` returns normally and the
container holds exactly the "No contacts found" placeholder; the container has
no `.contact-item` row, no element at all, and no click listener is attached. -/
theorem renderContacts_empty (st : State) (hempty : st.contacts = some []) :
    renderContacts st =
      .ok { st with contactsList := [Node.text noContactsMarkup], rowListeners := [] } ∧
    queryAllClass "contact-item".toList [Node.text noContactsMarkup] = [] ∧
    countElementsList [Node.text noContactsMarkup] = 0 ∧
    textContentList [Node.text noContactsMarkup] =
      "<div class=\"loading\">No contacts found</div>".toList := by
  refine ⟨?_, rfl, rfl, rfl⟩
  simp only [renderContacts, hempty, containerContext, setInnerHTML_flow_eq]
  rfl

/-- C10 on a freshly constructed controller. -/
theorem renderContacts_empty_witness :
    (construct emptyDoc).contacts = some [] ∧
    renderContacts (construct emptyDoc) =
      .ok { construct emptyDoc with
        contactsList := [Node.text noContactsMarkup], rowListeners := [] } :=
  ⟨rfl, (renderContacts_empty (construct emptyDoc) rfl).1⟩

/-- C8, evaluated on the code: for the contact list holding Alice,
`renderContacts` returns normally with the row template as one text node in
the container: no `.contact-item` row, no element at all, no click listener. -/
theorem renderContacts_creates_no_rows :
    ∃ st1, renderContacts { construct emptyDoc with contacts := some [alice] } = .ok st1 ∧
      st1.contactsList = [Node.text (contactRowMarkup alice)] ∧
      queryAllClass "contact-item".toList st1.contactsList = [] ∧
      countElementsList st1.contactsList = 0 ∧
      st1.rowListeners = [] :=
  ⟨_, rfl, rfl, rfl, rfl, rfl⟩

/-- C6, evaluated on the code: for the message `<img src=x onerror=alert(1)>`
the appended element holds no element and its text is the bubble template with
the message escaped once more (`&lt;img src=x onerror=alert(1)&gt;`); the
message itself occurs nowhere in the displayed text. -/
theorem addMessageToChat_shows_escaped_text :
    (messageElement "outgoing".toList imgMessage "12:00".toList).textContent =
      bubbleMarkup "outgoing".toList "&lt;img src=x onerror=alert(1)&gt;".toList "12:00".toList ∧
    ¬ (imgMessage <:+: (messageElement "outgoing".toList imgMessage "12:00".toList).textContent) ∧
    (messageElement "outgoing".toList imgMessage "12:00".toList).countElements = 1 ∧
    (addMessageToChat aliceSelected "outgoing".toList imgMessage "12:00".toList).chatMessages =
      aliceSelected.chatMessages ++
        [messageElement "outgoing".toList imgMessage "12:00".toList] := by
  refine ⟨rfl, by decide, rfl, rfl⟩

end NexPing
